import Mathlib

/-!
Shallow embedding of the traffic-signal phase simulator from
`src/components/Navigation/NavigationPanel.tsx` (the `TrafficSignalOverlay`
component): the per-signal tick function `updateSignalStates`, the demo
factory `createDemoSignals`, the candidate adapter `enhanceAllSignals`,
and the initial-phase/countdown seeding helpers.
-/

set_option maxRecDepth 100000

namespace OlaMaps

/-- The `currentState` field: `'red' | 'yellow' | 'green' | 'walk'`. -/
inductive SignalState where
  | red
  | yellow
  | green
  | walk
  deriving DecidableEq, Inhabited

/-- The `TrafficSignal` record. JS numbers that may be `undefined` after the
coordinate fallback chain (`lat`, `lng`) are `Option ℚ`; `countdown`,
`cycleCount` and `completedCycles` are plain JS numbers, embedded as `Int`. -/
structure TrafficSignal where
  id : String
  lat : Option ℚ
  lng : Option ℚ
  name : String
  currentState : SignalState
  countdown : Int
  pedestrianWalk : Bool
  cycleCount : Int
  completedCycles : Int
  deriving DecidableEq, Inhabited

/-- One signal's step of `updateSignalStates`: the body of the arrow function
inside `prev.map(signal => ...)` (NavigationPanel.tsx lines 926-996).
`newCompletedCycles = signal.completedCycles || 0` is the identity on the
embedded `Int` value, so it is written as `s.completedCycles`. -/
def updateSignalState (s : TrafficSignal) : TrafficSignal :=
  let newCountdown := s.countdown - 1
  if newCountdown ≤ 0 then
    match s.currentState with
    | .red =>
        { s with currentState := .green, countdown := 30, pedestrianWalk := false }
    | .green =>
        { s with currentState := .yellow, countdown := 6, pedestrianWalk := false }
    | .yellow =>
        let newCompletedCycles := s.completedCycles + 1
        if 2 ≤ newCompletedCycles then
          { s with currentState := .walk, countdown := 20, pedestrianWalk := true,
                   completedCycles := 0 }
        else
          { s with currentState := .red, countdown := 45, pedestrianWalk := false,
                   completedCycles := newCompletedCycles }
    | .walk =>
        { s with currentState := .red, countdown := 45, pedestrianWalk := false }
  else
    { s with countdown := newCountdown,
             pedestrianWalk := decide (s.currentState = .walk) }

/-- `updateSignalStates`: `setTrafficSignals(prev => prev.map(signal => ...))`. -/
def updateSignalStates (signals : List TrafficSignal) : List TrafficSignal :=
  signals.map updateSignalState

/-- `getInitialState`: `states[signalIndex % 3]` with `states = ['red', 'green', 'yellow']`. -/
def getInitialState (signalIndex : Nat) : SignalState :=
  match signalIndex % 3 with
  | 0 => .red
  | 1 => .green
  | _ => .yellow

/-- The `baseCountdowns` table of `getInitialCountdown`. -/
def baseCountdowns : SignalState → Nat
  | .red => 45
  | .green => 30
  | .yellow => 6
  | .walk => 20

/-- `getInitialCountdown`: `minTime = Math.max(5, Math.floor(maxTime * 0.2))`,
`seed = (signalIndex * 7 + 13) % (maxTime - minTime + 1)`, result `minTime + seed`.
`Math.floor(maxTime * 0.2)` is the exact `⌊maxTime * 2 / 10⌋` at every table
value (45, 30, 6, 20), so it is embedded as `Nat` division. -/
def getInitialCountdown (state : SignalState) (signalIndex : Nat) : Nat :=
  let maxTime := baseCountdowns state
  let minTime := max 5 (maxTime * 2 / 10)
  let seed := (signalIndex * 7 + 13) % (maxTime - minTime + 1)
  minTime + seed

/-- The demo signal built for index `i` inside the loop of `createDemoSignals`
(NavigationPanel.tsx lines 1024-1037). -/
def demoSignal (location : ℚ × ℚ) (i : Nat) : TrafficSignal :=
  let initialState := getInitialState i
  { id := "demo_signal_" ++ toString (i + 1)
    lat := some (location.1 + (if i % 2 = 0 then (1 : ℚ)/1000 else -(1 : ℚ)/1000) * (i + 1))
    lng := some (location.2 + (if i < 2 then (1 : ℚ)/1000 else -(1 : ℚ)/1000) * (i + 1))
    name := "Traffic Signal " ++ toString (i + 1)
    currentState := initialState
    countdown := (getInitialCountdown initialState i : Int)
    pedestrianWalk := false
    cycleCount := 0
    completedCycles := 0 }

/-- `createDemoSignals`: exactly 4 demo signals, indices 0..3. -/
def createDemoSignals (location : ℚ × ℚ) : List TrafficSignal :=
  (List.range 4).map (demoSignal location)

/-- A raw discovery-source candidate as consumed by `enhanceAllSignals`:
loosely-typed, every field may be absent. `geometry?.coordinates` is
collapsed into one optional coordinate list, `latlng?.lat` / `latlng?.lng`
into two optional numbers. -/
structure RawCandidate where
  id : Option String
  lat : Option ℚ
  lng : Option ℚ
  geometry : Option (List ℚ)
  latlngLat : Option ℚ
  latlngLng : Option ℚ
  name : Option String
  propertiesName : Option String
  deriving DecidableEq, Inhabited

/-- JS truthiness of an optional number: `undefined`, and the number 0, are falsy. -/
def truthyNum (a : Option ℚ) : Bool :=
  match a with
  | none => false
  | some q => q != 0

/-- JS `a || b` on optional numbers. -/
def jsOrNum (a b : Option ℚ) : Option ℚ :=
  if truthyNum a then a else b

/-- JS truthiness of an optional string: `undefined` and `""` are falsy. -/
def truthyStr (a : Option String) : Bool :=
  match a with
  | none => false
  | some s => s != ""

/-- JS `a || b` where the fallback `b` is a (truthy) string literal. -/
def jsOrStr (a : Option String) (b : String) : String :=
  match a with
  | some s => if s != "" then s else b
  | none => b

/-- `g?.[i]`: optional index into an optional list. -/
def coordAt (g : Option (List ℚ)) (i : Nat) : Option ℚ :=
  g.bind fun l => l.get? i

/-- The record built for one candidate by the `.map((signal, index) => ...)`
of `enhanceAllSignals` (NavigationPanel.tsx lines 1296-1308), before the
truthiness filter. -/
def adaptCandidate (p : Nat × RawCandidate) : TrafficSignal :=
  let index := p.1
  let signal := p.2
  let initialState := getInitialState index
  { id := jsOrStr signal.id ("global_signal_" ++ toString index)
    lat := jsOrNum signal.lat (jsOrNum (coordAt signal.geometry 1) signal.latlngLat)
    lng := jsOrNum signal.lng (jsOrNum (coordAt signal.geometry 0) signal.latlngLng)
    name := jsOrStr signal.name
      (jsOrStr signal.propertiesName ("Traffic Signal " ++ toString (index + 1)))
    currentState := initialState
    countdown := (getInitialCountdown initialState index : Int)
    pedestrianWalk := false
    cycleCount := 0
    completedCycles := 0 }

/-- `enhanceAllSignals`: map every candidate (with its index) through
`adaptCandidate`, then `.filter(signal => signal.lat && signal.lng)`. -/
def enhanceAllSignals (signalData : List RawCandidate) : List TrafficSignal :=
  ((signalData.enum).map adaptCandidate).filter
    (fun s => truthyNum s.lat && truthyNum s.lng)

/-- The fixed fallback anchor `{ lat: 28.7041, lng: 77.1025 }`. -/
def defaultLoc : ℚ × ℚ := (287041/10000, 771025/10000)

/-- A signal freshly in `phase=Red, countdown=45, completedCycles=0`. -/
def freshRed : TrafficSignal :=
  { id := "s", lat := some 0, lng := some 0, name := "s",
    currentState := .red, countdown := 45, pedestrianWalk := false,
    cycleCount := 0, completedCycles := 0 }

example : (updateSignalState freshRed).countdown = 44 := by decide
example : getInitialCountdown .red 0 = 22 := by decide
example : getInitialCountdown .green 1 = 26 := by decide
example : getInitialCountdown .yellow 2 = 6 := by decide
example : getInitialCountdown .red 3 = 43 := by decide

/-- The phase-relevant core of a signal: `(currentState, countdown, completedCycles)`. -/
def core (s : TrafficSignal) : SignalState × Int × Int :=
  (s.currentState, s.countdown, s.completedCycles)

/-- `updateSignalState` restricted to the core fields. -/
def coreTick (c : SignalState × Int × Int) : SignalState × Int × Int :=
  let newCountdown := c.2.1 - 1
  if newCountdown ≤ 0 then
    match c.1 with
    | .red => (.green, 30, c.2.2)
    | .green => (.yellow, 6, c.2.2)
    | .yellow => if 2 ≤ c.2.2 + 1 then (.walk, 20, 0) else (.red, 45, c.2.2 + 1)
    | .walk => (.red, 45, c.2.2)
  else
    (c.1, newCountdown, c.2.2)

lemma core_updateSignalState (s : TrafficSignal) :
    core (updateSignalState s) = coreTick (core s) := by
  obtain ⟨i, la, ln, nm, st, cd, pd, cy, cc⟩ := s
  cases st <;> by_cases h : cd - 1 ≤ 0 <;>
    by_cases h2 : (2 : Int) ≤ cc + 1 <;>
    simp [updateSignalState, coreTick, core, h, h2]

lemma core_iterate (n : Nat) (s : TrafficSignal) :
    core (updateSignalState^[n] s) = coreTick^[n] (core s) := by
  induction n with
  | zero => rfl
  | succ n ih =>
      rw [Function.iterate_succ_apply', Function.iterate_succ_apply',
        core_updateSignalState, ih]

/-- Number of ticks, among the first `n` applied to `s`, that enter the Walk
phase (the state after the tick is Walk while the state before is not). -/
def countWalkEntries : Nat → TrafficSignal → Nat
  | 0, _ => 0
  | n + 1, s =>
      (if (updateSignalState s).currentState = .walk ∧ ¬ s.currentState = .walk
        then 1 else 0) + countWalkEntries n (updateSignalState s)

/-- `countWalkEntries` on the core. -/
def coreCountWalkEntries : Nat → SignalState × Int × Int → Nat
  | 0, _ => 0
  | n + 1, c =>
      (if (coreTick c).1 = .walk ∧ ¬ c.1 = .walk then 1 else 0)
        + coreCountWalkEntries n (coreTick c)

lemma countWalkEntries_core (n : Nat) (s : TrafficSignal) :
    countWalkEntries n s = coreCountWalkEntries n (core s) := by
  induction n generalizing s with
  | zero => rfl
  | succ n ih =>
      show _ + countWalkEntries n (updateSignalState s)
        = _ + coreCountWalkEntries n (coreTick (core s))
      rw [ih, core_updateSignalState]
      have h1 : (coreTick (core s)).1 = (updateSignalState s).currentState := by
        rw [← core_updateSignalState]; rfl
      rw [h1]; rfl

lemma tick_decrement (s : TrafficSignal) (h : 0 < s.countdown - 1) :
    updateSignalState s =
      { s with countdown := s.countdown - 1,
               pedestrianWalk := decide (s.currentState = .walk) } := by
  unfold updateSignalState
  rw [if_neg (by omega)]

/-- Claim C1: one tick with `countdown - 1 > 0` keeps the phase and
`completedCycles` and decrements `countdown` by exactly 1; with
`countdown - 1 <= 0` a transition fires: Red to Green with countdown 30,
Green to Yellow with 6, Walk to Red with 45, and at a Yellow exit
`completedCycles` is incremented first, then if the new value is `>= 2` the
signal goes to Walk with countdown 20 and `completedCycles` reset to 0,
otherwise to Red with countdown 45 keeping the incremented value; the case
split covers all four phases, so every phase has a defined successor. -/
theorem updateSignalState_transition (s : TrafficSignal) :
    (0 < s.countdown - 1 →
      (updateSignalState s).currentState = s.currentState ∧
      (updateSignalState s).countdown = s.countdown - 1 ∧
      (updateSignalState s).completedCycles = s.completedCycles) ∧
    (s.countdown - 1 ≤ 0 →
      (s.currentState = .red →
        (updateSignalState s).currentState = .green ∧
        (updateSignalState s).countdown = 30 ∧
        (updateSignalState s).completedCycles = s.completedCycles) ∧
      (s.currentState = .green →
        (updateSignalState s).currentState = .yellow ∧
        (updateSignalState s).countdown = 6 ∧
        (updateSignalState s).completedCycles = s.completedCycles) ∧
      (s.currentState = .walk →
        (updateSignalState s).currentState = .red ∧
        (updateSignalState s).countdown = 45 ∧
        (updateSignalState s).completedCycles = s.completedCycles) ∧
      (s.currentState = .yellow →
        (2 ≤ s.completedCycles + 1 →
          (updateSignalState s).currentState = .walk ∧
          (updateSignalState s).countdown = 20 ∧
          (updateSignalState s).completedCycles = 0) ∧
        (s.completedCycles + 1 < 2 →
          (updateSignalState s).currentState = .red ∧
          (updateSignalState s).countdown = 45 ∧
          (updateSignalState s).completedCycles = s.completedCycles + 1))) := by
  obtain ⟨i, la, ln, nm, st, cd, pd, cy, cc⟩ := s
  refine ⟨fun h => ?_, fun h => ⟨fun h1 => ?_, fun h2 => ?_, fun h3 => ?_,
    fun h4 => ⟨fun h5 => ?_, fun h6 => ?_⟩⟩⟩
  · rw [tick_decrement _ h]; exact ⟨rfl, rfl, rfl⟩
  · subst h1; unfold updateSignalState; rw [if_pos h]; exact ⟨rfl, rfl, rfl⟩
  · subst h2; unfold updateSignalState; rw [if_pos h]; exact ⟨rfl, rfl, rfl⟩
  · subst h3; unfold updateSignalState; rw [if_pos h]; exact ⟨rfl, rfl, rfl⟩
  · subst h4; simp only [updateSignalState]
    rw [if_pos h, if_pos h5]; exact ⟨rfl, rfl, rfl⟩
  · subst h4; simp only [updateSignalState]
    have h6' : cc + 1 < 2 := h6
    rw [if_pos h, if_neg (show ¬ (2 : Int) ≤ cc + 1 by omega)]
    exact ⟨rfl, rfl, rfl⟩

/-- A signal one tick before a Walk-producing Yellow exit. -/
def yellowExitSig : TrafficSignal :=
  { freshRed with currentState := .yellow, countdown := 1, completedCycles := 1 }

/-- Witness for C1 at concrete inputs: a decrement step and a Yellow exit. -/
theorem updateSignalState_transition_witness :
    ((updateSignalState freshRed).currentState = freshRed.currentState ∧
      (updateSignalState freshRed).countdown = freshRed.countdown - 1 ∧
      (updateSignalState freshRed).completedCycles = freshRed.completedCycles) ∧
    ((updateSignalState yellowExitSig).currentState = .walk ∧
      (updateSignalState yellowExitSig).countdown = 20 ∧
      (updateSignalState yellowExitSig).completedCycles = 0) :=
  ⟨(updateSignalState_transition freshRed).1 (by decide),
   (((updateSignalState_transition yellowExitSig).2 (by decide)).2.2.2
      (by decide)).1 (by decide)⟩

/-- Claim C2: from `phase=Red, countdown=45, completedCycles=0`, 81 ticks
reach `phase=Red` with `completedCycles=1`; 162 ticks from the fresh start
enter the Walk phase exactly once, and the state after tick 162 is Walk with
countdown 20 (a Walk phase of duration 20). -/
theorem cycle_law (s : TrafficSignal) (hst : s.currentState = .red)
    (hcd : s.countdown = 45) (hcc : s.completedCycles = 0) :
    (updateSignalState^[81] s).currentState = .red ∧
    (updateSignalState^[81] s).completedCycles = 1 ∧
    (updateSignalState^[162] s).currentState = .walk ∧
    (updateSignalState^[162] s).countdown = 20 ∧
    countWalkEntries 162 s = 1 := by
  have hcore : core s = (.red, 45, 0) := by
    simp [core, hst, hcd, hcc]
  have h81 : core (updateSignalState^[81] s) = coreTick^[81] (.red, 45, 0) := by
    rw [core_iterate, hcore]
  have h162 : core (updateSignalState^[162] s) = coreTick^[162] (.red, 45, 0) := by
    rw [core_iterate, hcore]
  have e81 : coreTick^[81] ((.red, 45, 0) : SignalState × Int × Int)
      = (.red, 45, 1) := by decide
  have e162 : coreTick^[162] ((.red, 45, 0) : SignalState × Int × Int)
      = (.walk, 20, 0) := by decide
  rw [e81] at h81
  rw [e162] at h162
  refine ⟨congrArg Prod.fst h81, ?_, congrArg Prod.fst h162, ?_, ?_⟩
  · exact congrArg (fun c => c.2.2) h81
  · exact congrArg (fun c => c.2.1) h162
  · rw [countWalkEntries_core, hcore]
    decide

/-- Witness for C2 at the concrete fresh signal. -/
theorem cycle_law_witness :
    (updateSignalState^[81] freshRed).currentState = .red ∧
    (updateSignalState^[81] freshRed).completedCycles = 1 ∧
    (updateSignalState^[162] freshRed).currentState = .walk ∧
    (updateSignalState^[162] freshRed).countdown = 20 ∧
    countWalkEntries 162 freshRed = 1 :=
  cycle_law freshRed rfl rfl rfl

/-- A signal as created by one of the two factories: the demo layout at some
anchor, or the adaptation of some raw candidate list. -/
def CreatedSignal (s : TrafficSignal) : Prop :=
  (∃ loc, s ∈ createDemoSignals loc) ∨ (∃ data, s ∈ enhanceAllSignals data)

/-- Reachable signal states: created by a factory, then any number of ticks. -/
inductive ReachableSignal : TrafficSignal → Prop where
  | created (s : TrafficSignal) : CreatedSignal s → ReachableSignal s
  | tick (s : TrafficSignal) : ReachableSignal s → ReachableSignal (updateSignalState s)

lemma getInitialState_ne_walk (i : Nat) : getInitialState i ≠ .walk := by
  unfold getInitialState
  split <;> simp

lemma getInitialCountdown_ge (st : SignalState) (i : Nat) :
    5 ≤ getInitialCountdown st i :=
  le_trans (le_max_left _ _) (Nat.le_add_right _ _)

lemma created_fields (s : TrafficSignal) (h : CreatedSignal s) :
    s.pedestrianWalk = false ∧ s.currentState ≠ .walk ∧
      (5 : Int) ≤ s.countdown ∧ s.cycleCount = 0 ∧ s.completedCycles = 0 := by
  rcases h with ⟨loc, hmem⟩ | ⟨data, hmem⟩
  · rcases List.mem_map.1 hmem with ⟨i, -, rfl⟩
    refine ⟨rfl, getInitialState_ne_walk i, ?_, rfl, rfl⟩
    show (5 : Int) ≤ ((getInitialCountdown (getInitialState i) i : Nat) : Int)
    exact_mod_cast getInitialCountdown_ge _ i
  · rcases List.mem_filter.1 hmem with ⟨hmem', -⟩
    rcases List.mem_map.1 hmem' with ⟨p, -, rfl⟩
    refine ⟨rfl, getInitialState_ne_walk p.1, ?_, rfl, rfl⟩
    show (5 : Int) ≤ ((getInitialCountdown (getInitialState p.1) p.1 : Nat) : Int)
    exact_mod_cast getInitialCountdown_ge _ p.1

lemma tick_ped_iff (s : TrafficSignal) :
    (updateSignalState s).pedestrianWalk = true ↔
      (updateSignalState s).currentState = .walk := by
  obtain ⟨i, la, ln, nm, st, cd, pd, cy, cc⟩ := s
  cases st <;> by_cases h : cd - 1 ≤ 0 <;>
    by_cases h2 : (2 : Int) ≤ cc + 1 <;>
    simp [updateSignalState, h, h2]

/-- Claim C3: in every reachable signal state — after creation by either
factory and after every tick — `pedestrianWalk` is true iff the current
phase is Walk. -/
theorem pedestrian_flag_consistency (s : TrafficSignal) (h : ReachableSignal s) :
    s.pedestrianWalk = true ↔ s.currentState = .walk := by
  induction h with
  | created s hc =>
      obtain ⟨hped, hst, -⟩ := created_fields s hc
      simp [hped, hst]
  | tick s hr ih => exact tick_ped_iff s

/-- The first demo signal at the fallback anchor. -/
def demoSig0 : TrafficSignal := demoSignal defaultLoc 0

lemma demoSig0_created : CreatedSignal demoSig0 :=
  Or.inl ⟨defaultLoc, List.mem_map_of_mem _ (by decide : 0 ∈ List.range 4)⟩

/-- Witness for C3 at a concrete created signal. -/
theorem pedestrian_flag_consistency_witness :
    demoSig0.pedestrianWalk = true ↔ demoSig0.currentState = .walk :=
  pedestrian_flag_consistency demoSig0 (.created demoSig0 demoSig0_created)

lemma tick_countdown_pos (s : TrafficSignal) :
    0 < (updateSignalState s).countdown := by
  obtain ⟨i, la, ln, nm, st, cd, pd, cy, cc⟩ := s
  cases st <;> by_cases h : cd - 1 ≤ 0 <;>
    by_cases h2 : (2 : Int) ≤ cc + 1 <;>
    simp [updateSignalState, h, h2] <;> omega

lemma tick_countdown_reset (s : TrafficSignal) (h : s.countdown - 1 ≤ 0) :
    (updateSignalState s).countdown
      = (baseCountdowns (updateSignalState s).currentState : Int) := by
  obtain ⟨i, la, ln, nm, st, cd, pd, cy, cc⟩ := s
  cases st <;> by_cases h2 : (2 : Int) ≤ cc + 1 <;>
    simp [updateSignalState, h, h2, baseCountdowns]

/-- Claim C4: countdown is nonnegative in every reachable state and a tick
never produces a negative countdown; a tick decrements the countdown by
exactly 1 while `countdown - 1 > 0`, and once it would go to 0-or-below it
resets to the entering phase's fixed duration (45, 30, 6, or 20). -/
theorem countdown_invariant :
    (∀ s, ReachableSignal s → 0 ≤ s.countdown) ∧
    (∀ s : TrafficSignal, 0 ≤ (updateSignalState s).countdown) ∧
    (∀ s : TrafficSignal, 0 < s.countdown - 1 →
      (updateSignalState s).countdown = s.countdown - 1) ∧
    (∀ s : TrafficSignal, s.countdown - 1 ≤ 0 →
      (updateSignalState s).countdown
          = (baseCountdowns (updateSignalState s).currentState : Int) ∧
      ((updateSignalState s).countdown = 45 ∨ (updateSignalState s).countdown = 30 ∨
        (updateSignalState s).countdown = 6 ∨ (updateSignalState s).countdown = 20)) := by
  refine ⟨fun s h => ?_, fun s => le_of_lt (tick_countdown_pos s),
    fun s h => ?_, fun s h => ⟨tick_countdown_reset s h, ?_⟩⟩
  · induction h with
    | created s hc => exact le_trans (by norm_num) (created_fields s hc).2.2.1
    | tick s hr ih => exact le_of_lt (tick_countdown_pos s)
  · rw [tick_decrement s h]
  · rw [tick_countdown_reset s h]
    cases (updateSignalState s).currentState <;> simp [baseCountdowns]

/-- Witness for C4 at concrete inputs. -/
theorem countdown_invariant_witness :
    0 ≤ demoSig0.countdown ∧
    (updateSignalState freshRed).countdown = freshRed.countdown - 1 ∧
    ((updateSignalState yellowExitSig).countdown
        = (baseCountdowns (updateSignalState yellowExitSig).currentState : Int) ∧
      ((updateSignalState yellowExitSig).countdown = 45 ∨
        (updateSignalState yellowExitSig).countdown = 30 ∨
        (updateSignalState yellowExitSig).countdown = 6 ∨
        (updateSignalState yellowExitSig).countdown = 20)) :=
  ⟨countdown_invariant.1 demoSig0 (.created demoSig0 demoSig0_created),
   countdown_invariant.2.2.1 freshRed (by decide),
   countdown_invariant.2.2.2 yellowExitSig (by decide)⟩

lemma tick_preserves_frame (s : TrafficSignal) :
    (updateSignalState s).id = s.id ∧ (updateSignalState s).lat = s.lat ∧
      (updateSignalState s).lng = s.lng ∧ (updateSignalState s).name = s.name ∧
      (updateSignalState s).cycleCount = s.cycleCount := by
  obtain ⟨i, la, ln, nm, st, cd, pd, cy, cc⟩ := s
  cases st <;> by_cases h : cd - 1 ≤ 0 <;>
    by_cases h2 : (2 : Int) ≤ cc + 1 <;>
    simp [updateSignalState, h, h2]

/-- Claim C9: one tick of the whole set modifies only phase, countdown,
pedestrian flag and cycle counters: every signal's id, position (lat/lng)
and name are unchanged, and the number and order of signals are preserved. -/
theorem updateSignalStates_frame (l : List TrafficSignal) :
    (updateSignalStates l).length = l.length ∧
    (updateSignalStates l).map (fun s => s.id) = l.map (fun s => s.id) ∧
    (updateSignalStates l).map (fun s => s.lat) = l.map (fun s => s.lat) ∧
    (updateSignalStates l).map (fun s => s.lng) = l.map (fun s => s.lng) ∧
    (updateSignalStates l).map (fun s => s.name) = l.map (fun s => s.name) := by
  refine ⟨by simp [updateSignalStates], ?_, ?_, ?_, ?_⟩ <;>
    · unfold updateSignalStates
      rw [List.map_map]
      exact List.map_congr_left fun s _ => by
        have := tick_preserves_frame s
        simp_all [Function.comp]

/-- Claim C10: `cycleCount` is a field distinct from `completedCycles`; both
factories set it to 0, every tick copies it unchanged — so it is 0 in every
reachable state — and it never influences the phase, countdown, pedestrian
flag or `completedCycles` produced by a tick. -/
theorem cycleCount_invariant :
    (∀ s, ReachableSignal s → s.cycleCount = 0) ∧
    (∀ s : TrafficSignal, (updateSignalState s).cycleCount = s.cycleCount) ∧
    (∀ (s : TrafficSignal) (c : Int),
      (updateSignalState { s with cycleCount := c }).currentState
          = (updateSignalState s).currentState ∧
      (updateSignalState { s with cycleCount := c }).countdown
          = (updateSignalState s).countdown ∧
      (updateSignalState { s with cycleCount := c }).pedestrianWalk
          = (updateSignalState s).pedestrianWalk ∧
      (updateSignalState { s with cycleCount := c }).completedCycles
          = (updateSignalState s).completedCycles) := by
  refine ⟨fun s h => ?_, fun s => (tick_preserves_frame s).2.2.2.2, fun s c => ?_⟩
  · induction h with
    | created s hc => exact (created_fields s hc).2.2.2.1
    | tick s hr ih => rw [(tick_preserves_frame s).2.2.2.2]; exact ih
  · obtain ⟨i, la, ln, nm, st, cd, pd, cy, cc⟩ := s
    cases st <;> by_cases h : cd - 1 ≤ 0 <;>
      by_cases h2 : (2 : Int) ≤ cc + 1 <;>
      simp [updateSignalState, h, h2]

/-- Witness for C10 at a concrete reachable signal. -/
theorem cycleCount_invariant_witness : demoSig0.cycleCount = 0 :=
  cycleCount_invariant.1 demoSig0 (.created demoSig0 demoSig0_created)

/-- Modelled from the spec's words, for comparison with the source formula:
`minTime = max(5, floor(D * 0.2))`. -/
def specMinTime (d : Nat) : Nat := max 5 (d * 2 / 10)

/-- Modelled from the spec's words, for comparison with the source formula:
`seed = (i*7 + 13) mod (D - minTime + 1); countdown = minTime + seed`. -/
def specSeedCountdown (d i : Nat) : Nat :=
  specMinTime d + (i * 7 + 13) % (d - specMinTime d + 1)

lemma getInitialCountdown_eq_spec (st : SignalState) (i : Nat) :
    getInitialCountdown st i = specSeedCountdown (baseCountdowns st) i := rfl

/-- Claim C5: the demo factory yields exactly 4 signals at deterministic
index-dependent offsets from the anchor, with phases
`[Red, Green, Yellow][i mod 3] = [Red, Green, Yellow, Red]`, countdowns
equal to `minTime + ((i*7 + 13) mod (D - minTime + 1))` for the assigned
phase's duration `D` with `minTime = max(5, floor(D*0.2))`, and no signal
starting at countdown 0; the output is a function of the anchor alone, so
two runs with the same anchor produce identical signal sets. -/
theorem createDemoSignals_seeding (loc : ℚ × ℚ) :
    (createDemoSignals loc).length = 4 ∧
    (createDemoSignals loc).map (fun s => s.currentState)
      = [.red, .green, .yellow, .red] ∧
    (createDemoSignals loc).map (fun s => s.lat)
      = [some (loc.1 + 1/1000), some (loc.1 - 2/1000),
         some (loc.1 + 3/1000), some (loc.1 - 4/1000)] ∧
    (createDemoSignals loc).map (fun s => s.lng)
      = [some (loc.2 + 1/1000), some (loc.2 + 2/1000),
         some (loc.2 - 3/1000), some (loc.2 - 4/1000)] ∧
    (createDemoSignals loc).map (fun s => s.countdown)
      = (List.range 4).map
          (fun i => (specSeedCountdown (baseCountdowns (getInitialState i)) i : Int)) ∧
    ∀ s ∈ createDemoSignals loc, 0 < s.countdown := by
  refine ⟨rfl, rfl, ?_, ?_, rfl, ?_⟩
  · show [(demoSignal loc 0).lat, (demoSignal loc 1).lat,
      (demoSignal loc 2).lat, (demoSignal loc 3).lat] = _
    simp only [demoSignal]
    norm_num
    exact ⟨by ring, by ring⟩
  · show [(demoSignal loc 0).lng, (demoSignal loc 1).lng,
      (demoSignal loc 2).lng, (demoSignal loc 3).lng] = _
    simp only [demoSignal]
    norm_num
    exact ⟨by ring, by ring⟩
  · intro s hs
    rcases List.mem_map.1 hs with ⟨i, -, rfl⟩
    have h5 : (5 : Int) ≤ (demoSignal loc i).countdown := by
      show (5 : Int) ≤ ((getInitialCountdown (getInitialState i) i : Nat) : Int)
      exact_mod_cast getInitialCountdown_ge _ i
    omega

/-- Witness for C5 at the fallback anchor. -/
theorem createDemoSignals_seeding_witness :
    (createDemoSignals defaultLoc).length = 4 ∧ 0 < demoSig0.countdown :=
  ⟨(createDemoSignals_seeding defaultLoc).1,
   (createDemoSignals_seeding defaultLoc).2.2.2.2.2 demoSig0
     (List.mem_map_of_mem _ (by decide : 0 ∈ List.range 4))⟩

/-- The tick applied to `s` exits the Yellow phase: the transition branch
fires (`countdown - 1 <= 0`) while the phase is Yellow. -/
def YellowExit (s : TrafficSignal) : Prop :=
  s.currentState = .yellow ∧ s.countdown - 1 ≤ 0

instance (s : TrafficSignal) : Decidable (YellowExit s) :=
  inferInstanceAs (Decidable (_ ∧ _))

/-- The tick applied to `s` enters the Walk phase. -/
def WalkEntry (s : TrafficSignal) : Prop :=
  (updateSignalState s).currentState = .walk ∧ ¬ s.currentState = .walk

instance (s : TrafficSignal) : Decidable (WalkEntry s) :=
  inferInstanceAs (Decidable (_ ∧ _))

/-- Number of Yellow exits among the first `n` ticks applied to `s`. -/
def yellowExitCount : Nat → TrafficSignal → Nat
  | 0, _ => 0
  | n + 1, s =>
      (if YellowExit s then 1 else 0) + yellowExitCount n (updateSignalState s)

lemma yellowExitCount_succ_back (n : Nat) (s : TrafficSignal) :
    yellowExitCount (n + 1) s
      = yellowExitCount n s
        + (if YellowExit (updateSignalState^[n] s) then 1 else 0) := by
  induction n generalizing s with
  | zero =>
      show (if YellowExit s then 1 else 0) + 0 = 0 + (if YellowExit s then 1 else 0)
      omega
  | succ n ih =>
      show (if YellowExit s then 1 else 0) + yellowExitCount (n + 1) (updateSignalState s)
        = ((if YellowExit s then 1 else 0) + yellowExitCount n (updateSignalState s)) + _
      rw [ih, Function.iterate_succ_apply]
      omega

lemma tick_completedCycles (t : TrafficSignal) :
    (updateSignalState t).completedCycles =
      if YellowExit t then
        (if 2 ≤ t.completedCycles + 1 then 0 else t.completedCycles + 1)
      else t.completedCycles := by
  obtain ⟨i, la, ln, nm, st, cd, pd, cy, cc⟩ := t
  cases st <;> by_cases h : cd - 1 ≤ 0 <;>
    by_cases h2 : (2 : Int) ≤ cc + 1 <;>
    simp [updateSignalState, YellowExit, h, h2]

lemma completedCycles_parity (n : Nat) (s : TrafficSignal)
    (h : s.completedCycles = 0) :
    (updateSignalState^[n] s).completedCycles
      = ((yellowExitCount n s % 2 : Nat) : Int) := by
  induction n with
  | zero => simpa using h
  | succ n ih =>
      rw [Function.iterate_succ_apply', tick_completedCycles,
        yellowExitCount_succ_back, ih]
      by_cases hy : YellowExit (updateSignalState^[n] s) <;>
        simp only [hy, if_pos, if_neg, ite_true, ite_false] <;> omega

lemma walkEntry_iff (t : TrafficSignal)
    (hcc : t.completedCycles = 0 ∨ t.completedCycles = 1) :
    WalkEntry t ↔ (YellowExit t ∧ t.completedCycles = 1) := by
  obtain ⟨i, la, ln, nm, st, cd, pd, cy, cc⟩ := t
  replace hcc : cc = 0 ∨ cc = 1 := hcc
  cases st <;> by_cases h : cd - 1 ≤ 0 <;>
    by_cases h2 : (2 : Int) ≤ cc + 1 <;>
    simp [updateSignalState, WalkEntry, YellowExit, h, h2] <;> omega

/-- Claim C6: along every tick trace from a freshly created signal
(`completedCycles = 0`), the Walk phase is entered exactly at the
even-numbered Yellow exits — tick `n` enters Walk iff it is a Yellow exit
and the number of Yellow exits among ticks `0..n` (that exit included) is
even — so Walk follows exactly every 2nd Yellow exit, never the 1st, 3rd,
5th, and so on. -/
theorem walk_periodicity (s : TrafficSignal) (h : s.completedCycles = 0) (n : Nat) :
    WalkEntry (updateSignalState^[n] s) ↔
      (YellowExit (updateSignalState^[n] s) ∧ yellowExitCount (n + 1) s % 2 = 0) := by
  have hcc := completedCycles_parity n s h
  have hsucc := yellowExitCount_succ_back n s
  have hcc01 : (updateSignalState^[n] s).completedCycles = 0 ∨
      (updateSignalState^[n] s).completedCycles = 1 := by omega
  rw [walkEntry_iff _ hcc01]
  constructor <;> rintro ⟨hye, hx⟩ <;> refine ⟨hye, ?_⟩ <;>
    rw [if_pos hye] at hsucc <;> omega

/-- Witness for C6: the 162nd tick of the fresh trace is the 2nd Yellow
exit and enters Walk. -/
theorem walk_periodicity_witness :
    (WalkEntry (updateSignalState^[161] freshRed) ↔
      (YellowExit (updateSignalState^[161] freshRed) ∧
        yellowExitCount 162 freshRed % 2 = 0)) ∧
    WalkEntry (updateSignalState^[161] freshRed) :=
  ⟨walk_periodicity freshRed rfl 161, by decide⟩

/-- Modelled from the spec's words, for comparison with the source filter:
a candidate has a resolvable coordinate when the fallback chain — explicit
`lat`/`lng`, else embedded geometry coordinates, else the alternate
`latlng` field names — yields a usable (truthy) value on both axes. -/
def hasResolvableCoordinate (c : RawCandidate) : Bool :=
  (truthyNum c.lat || truthyNum (coordAt c.geometry 1) || truthyNum c.latlngLat) &&
  (truthyNum c.lng || truthyNum (coordAt c.geometry 0) || truthyNum c.latlngLng)

lemma truthyNum_jsOrNum (a b : Option ℚ) :
    truthyNum (jsOrNum a b) = (truthyNum a || truthyNum b) := by
  unfold jsOrNum
  by_cases h : truthyNum a <;> simp [h]

lemma adaptCandidate_truthy (p : Nat × RawCandidate) :
    (truthyNum (adaptCandidate p).lat && truthyNum (adaptCandidate p).lng)
      = hasResolvableCoordinate p.2 := by
  show (truthyNum (jsOrNum _ (jsOrNum _ _)) && truthyNum (jsOrNum _ (jsOrNum _ _))) = _
  rw [truthyNum_jsOrNum, truthyNum_jsOrNum, truthyNum_jsOrNum, truthyNum_jsOrNum]
  simp [hasResolvableCoordinate, Bool.or_assoc]

lemma enumFrom_filter_snd_length (g : RawCandidate → Bool) :
    ∀ (k : Nat) (data : List RawCandidate),
      ((List.enumFrom k data).filter (fun p => g p.2)).length
        = (data.filter g).length := by
  intro k data
  induction data generalizing k with
  | nil => rfl
  | cons c tl ih =>
      show (List.filter _ ((k, c) :: tl.enumFrom (k + 1))).length = _
      by_cases h : g c <;>
        simp [List.filter, h, ih (k + 1)]

/-- Claim C7: the adapter resolves each candidate's position through the
fallback chain explicit `lat`/`lng`, else geometry coordinates, else the
alternate `latlng` names; the produced signal set is exactly the adapted
image of the candidates with a resolvable coordinate in their original
order, so a candidate yields a signal iff its coordinate resolves, and
unresolvable candidates are dropped silently (the function is total: the
rest of the batch survives). -/
theorem enhanceAllSignals_resolvable (data : List RawCandidate) :
    enhanceAllSignals data
      = ((data.enum).filter (fun p => hasResolvableCoordinate p.2)).map adaptCandidate ∧
    (enhanceAllSignals data).length = (data.filter hasResolvableCoordinate).length ∧
    (∀ p : Nat × RawCandidate,
      (truthyNum p.2.lat = true → (adaptCandidate p).lat = p.2.lat) ∧
      (truthyNum p.2.lat = false → truthyNum (coordAt p.2.geometry 1) = true →
        (adaptCandidate p).lat = coordAt p.2.geometry 1) ∧
      (truthyNum p.2.lat = false → truthyNum (coordAt p.2.geometry 1) = false →
        (adaptCandidate p).lat = p.2.latlngLat) ∧
      (truthyNum p.2.lng = true → (adaptCandidate p).lng = p.2.lng) ∧
      (truthyNum p.2.lng = false → truthyNum (coordAt p.2.geometry 0) = true →
        (adaptCandidate p).lng = coordAt p.2.geometry 0) ∧
      (truthyNum p.2.lng = false → truthyNum (coordAt p.2.geometry 0) = false →
        (adaptCandidate p).lng = p.2.latlngLng)) := by
  have hcomm : enhanceAllSignals data
      = ((data.enum).filter (fun p => hasResolvableCoordinate p.2)).map adaptCandidate := by
    unfold enhanceAllSignals
    rw [List.filter_map]
    congr 1
    exact List.filter_congr fun p _ => adaptCandidate_truthy p
  refine ⟨hcomm, ?_, fun p => ?_⟩
  · rw [hcomm, List.length_map]
    exact enumFrom_filter_snd_length hasResolvableCoordinate 0 data
  · refine ⟨fun h1 => ?_, fun h1 h2 => ?_, fun h1 h2 => ?_,
      fun h1 => ?_, fun h1 h2 => ?_, fun h1 h2 => ?_⟩
    · simp [adaptCandidate, jsOrNum, h1]
    · simp [adaptCandidate, jsOrNum, h1, h2]
    · simp [adaptCandidate, jsOrNum, h1, h2]
    · simp [adaptCandidate, jsOrNum, h1]
    · simp [adaptCandidate, jsOrNum, h1, h2]
    · simp [adaptCandidate, jsOrNum, h1, h2]

/-- A candidate with explicit truthy coordinates. -/
def candExplicit : RawCandidate :=
  { id := some "c", lat := some 1, lng := some 2, geometry := none,
    latlngLat := none, latlngLng := none, name := none, propertiesName := none }

/-- A candidate with no usable coordinate on any field. -/
def candBare : RawCandidate :=
  { id := none, lat := none, lng := some 0, geometry := some [3, 4],
    latlngLat := none, latlngLng := none, name := none, propertiesName := none }

/-- Witness for C7 at concrete candidates: the explicit field wins when
truthy, and the geometry fallback is used when it is not. -/
theorem enhanceAllSignals_resolvable_witness :
    (adaptCandidate (0, candExplicit)).lat = candExplicit.lat ∧
    (adaptCandidate (1, candBare)).lat = coordAt candBare.geometry 1 :=
  ⟨((enhanceAllSignals_resolvable [candExplicit]).2.2 (0, candExplicit)).1 (by decide),
   (((enhanceAllSignals_resolvable [candBare]).2.2 (1, candBare)).2.1 (by decide)
      (by decide))⟩

/-- State of the `TrafficSignalOverlay` component's timer machinery: the
`trafficSignals` state, `intervalRef.current` (the live interval handle, if
any), React's memory of the timer effect's dependency array
`[trafficSignals.length > 0]`, and a counter issuing fresh `setInterval`
handles. -/
structure OverlayModel where
  signals : List TrafficSignal
  interval : Option Nat
  prevDep : Option Bool
  nextHandle : Nat
  deriving DecidableEq

/-- A render after a `trafficSignals` update, with React's timer-effect
semantics (NavigationPanel.tsx lines 828-846): the effect re-runs only when
the dependency `trafficSignals.length > 0` differs from the remembered one;
on a re-run the previous effect's cleanup clears the interval, then the
body returns early on an empty list and otherwise installs a fresh
interval. -/
def render (m : OverlayModel) : OverlayModel :=
  let dep := decide (0 < m.signals.length)
  if m.prevDep = some dep then m
  else
    let cleaned : OverlayModel := { m with interval := none }
    let run : OverlayModel :=
      if cleaned.signals.length = 0 then cleaned
      else { cleaned with interval := some cleaned.nextHandle,
                          nextHandle := cleaned.nextHandle + 1 }
    { run with prevDep := some dep }

/-- `setTrafficSignals(newSignals)` followed by the resulting render. -/
def setSignals (new : List TrafficSignal) (m : OverlayModel) : OverlayModel :=
  render { m with signals := new }

/-- A `setInterval` callback firing for handle `h`: it mutates the state
through `updateSignalStates` only if `h` is the currently installed
interval; a cleared handle never ticks again. -/
def tickEvent (h : Nat) (m : OverlayModel) : OverlayModel :=
  if m.interval = some h then { m with signals := updateSignalStates m.signals }
  else m

/-- The overlay as mounted: empty signal list, first render performed. -/
def mounted : OverlayModel :=
  render { signals := [], interval := none, prevDep := none, nextHandle := 0 }

/-- Counterexample to C8 as stated: install a non-empty demo set while
mounted (the interval with handle 0 starts), then replace it with a
different non-empty set while the scheduler is running. The effect's
dependency `trafficSignals.length > 0` is unchanged, so the effect does not
re-run: the very same interval handle 0 stays installed — the old cadence
is not stopped and no new one is started. -/
theorem scheduler_restart_counterexample :
    (setSignals [freshRed, freshRed] (setSignals [freshRed] mounted)).interval
        = (setSignals [freshRed] mounted).interval ∧
    (setSignals [freshRed] mounted).interval = some 0 ∧
    [freshRed, freshRed] ≠ [freshRed] ∧ [freshRed, freshRed] ≠ [] := by
  refine ⟨rfl, rfl, by decide, by decide⟩

/-- C8 as amended: replacing the signal set while the scheduler is running
keeps the single existing 1-second interval instead of restarting it (the
effect restarts the timer only when the set switches between empty and
non-empty), and this preserves the claim's guarantees: only one interval
handle is ever live, so no two tick loops overlap (a fired handle other
than the live one changes nothing); the state holds the new set, whose
pure replacement leaves the old signal values immutable; and a tick of the
live handle advances exactly the new set by `updateSignalStates`. -/
theorem scheduler_restart_amended (m : OverlayModel) (new : List TrafficSignal)
    (h : Nat) :
    (m.prevDep = some true → new ≠ [] → (setSignals new m).interval = m.interval) ∧
    (setSignals new m).signals = new ∧
    ((setSignals new m).interval = some h →
      (tickEvent h (setSignals new m)).signals = updateSignalStates new) ∧
    ((setSignals new m).interval ≠ some h →
      (tickEvent h (setSignals new m)).signals = new) := by
  have hdep : ∀ l : List TrafficSignal, l ≠ [] → decide (0 < l.length) = true := by
    intro l hl
    cases l with
    | nil => exact absurd rfl hl
    | cons a t => simp
  have hsig : ∀ (l : List TrafficSignal) (m' : OverlayModel),
      (setSignals l m').signals = l := by
    intro l m'
    simp only [setSignals, render]
    split
    · rfl
    · split <;> rfl
  refine ⟨fun hm hnew => ?_, hsig new m, fun hint => ?_, fun hint => ?_⟩
  · unfold setSignals render
    rw [hm, hdep new hnew]
    rfl
  · unfold tickEvent
    rw [if_pos hint]
    show updateSignalStates (setSignals new m).signals = _
    rw [hsig new m]
  · unfold tickEvent
    rw [if_neg hint]
    exact hsig new m

/-- Witness for the amended C8 at a concrete running model. -/
theorem scheduler_restart_amended_witness :
    (setSignals [freshRed, freshRed] (setSignals [freshRed] mounted)).interval
        = (setSignals [freshRed] mounted).interval ∧
    (tickEvent 0 (setSignals [freshRed, freshRed] (setSignals [freshRed] mounted))).signals
        = updateSignalStates [freshRed, freshRed] :=
  ⟨(scheduler_restart_amended (setSignals [freshRed] mounted) [freshRed, freshRed] 0).1
      (by decide) (by decide),
   (scheduler_restart_amended (setSignals [freshRed] mounted) [freshRed, freshRed] 0).2.2.1
      (by decide)⟩

end OlaMaps
